import Mathlib

/-!
Verification of the session lifecycle core of a multi-tenant WhatsApp HTTP
gateway.  The development is a shallow embedding of the JavaScript source:

* `SessionManager` (src/unnamed/part_001, also src/src/services/sessionManager.js)
  is embedded as the record `Mgr`, one field per `Map` of the class, with
  explicit state passing.  Client (connection-capability) instances are
  identified by `Nat` handles allocated from the counter `nextCap`.
* Clock reads (`Date.now()`) become an explicit `now : Nat` parameter
  (milliseconds).  Random key generation (`crypto.randomUUID()`) becomes an
  explicit `freshKey : String` parameter.
* Asynchronous interactions with the external whatsapp-web.js capability
  (initialization results, the QR race, state probes) are passed in as
  explicit outcome parameters; the event handlers installed by
  `setupClientEvents` become functions `Mgr → Mgr`.
* The HTTP routes of src/src/routes/index.js that the claims mention are
  embedded as functions from request data (plus the same environment
  parameters) to a response value and the updated manager state.
-/

/-- Pointwise update of a string-keyed partial map (`Map.set` / `Map.delete`). -/
def upd {α : Type} (m : String → Option α) (k : String) (v : Option α) :
    String → Option α :=
  fun x => if x = k then v else m x

/-- Pointwise update of a string-keyed presence map (`Map.set` / `Map.delete`
for entries whose stored value we model only by presence). -/
def updB (m : String → Bool) (k : String) (v : Bool) : String → Bool :=
  fun x => if x = k then v else m x

/-- The mutable state of the `SessionManager` singleton: one field per `Map`
created in its constructor (src/unnamed/part_001 lines 8-16), plus the
allocator `nextCap` for capability instance handles.

* `sessions`        : clientId ↦ capability instance handle
* `qrCodes`         : clientId ↦ rendered base64 QR artifact
* `qrPromises`      : clientId ↦ presence of the pending QR waiter
  (the stored resolver pair is modelled by presence only)
* `sessionStates`   : clientId ↦ lifecycle state string
* `authenticatedSessions` : clientId ↦ fully-authenticated flag
* `sessionKeys`     : clientId ↦ issued exchange-key value
* `sessionKeyExpiry`: clientId ↦ expiry timestamp (ms) -/
structure Mgr where
  sessions : String → Option Nat
  qrCodes : String → Option String
  qrPromises : String → Bool
  sessionStates : String → Option String
  authenticatedSessions : String → Option Bool
  sessionKeys : String → Option String
  sessionKeyExpiry : String → Option Nat
  nextCap : Nat

/-- The freshly constructed manager: every map empty. -/
def Mgr.empty : Mgr where
  sessions := fun _ => none
  qrCodes := fun _ => none
  qrPromises := fun _ => false
  sessionStates := fun _ => none
  authenticatedSessions := fun _ => none
  sessionKeys := fun _ => none
  sessionKeyExpiry := fun _ => none
  nextCap := 0

/-- `generateSessionKey(clientId)` (lines 385-394): records the freshly
generated key (the nondeterministic `crypto.randomUUID()` result is the
parameter `freshKey`) and its expiry `now + 10 minutes`, overwriting any
prior key for the client, and returns the key. -/
def generateSessionKey (m : Mgr) (clientId freshKey : String) (now : Nat) :
    Mgr × String :=
  ({ m with
      sessionKeys := upd m.sessionKeys clientId (some freshKey),
      sessionKeyExpiry := upd m.sessionKeyExpiry clientId (some (now + 10 * 60 * 1000)) },
   freshKey)

/-- `isSessionKeyValid(clientId, providedKey)` (lines 399-416): false when no
key or no expiry is recorded; when `now > expiry` the record is deleted and
the result is false; otherwise the result is the exact string comparison
`storedKey === providedKey`. -/
def isSessionKeyValid (m : Mgr) (clientId providedKey : String) (now : Nat) :
    Mgr × Bool :=
  match m.sessionKeys clientId, m.sessionKeyExpiry clientId with
  | some storedKey, some expiry =>
      if expiry < now then
        ({ m with
            sessionKeys := upd m.sessionKeys clientId none,
            sessionKeyExpiry := upd m.sessionKeyExpiry clientId none }, false)
      else
        (m, storedKey == providedKey)
  | some _, none => (m, false)
  | none, _ => (m, false)

/-- `consumeSessionKey(clientId, providedKey)` (lines 421-432): re-validates
via `isSessionKeyValid` and, if valid, deletes the key and expiry records
(one-time use) and returns true; otherwise returns false. -/
def consumeSessionKey (m : Mgr) (clientId providedKey : String) (now : Nat) :
    Mgr × Bool :=
  let v := isSessionKeyValid m clientId providedKey now
  if v.2 then
    ({ v.1 with
        sessionKeys := upd v.1.sessionKeys clientId none,
        sessionKeyExpiry := upd v.1.sessionKeyExpiry clientId none }, true)
  else
    (v.1, false)

/-- The value returned by `createSession`: on the already-registered path the
source returns the stored client object bare (`return this.sessions.get(clientId)`,
line 20); on the fresh path it returns the object `{ client, sessionKey }`
(line 49). -/
inductive CreateResult where
  | existing (client : Nat)
  | fresh (client : Nat) (sessionKey : String)
deriving DecidableEq

/-- What the JavaScript destructuring `const { client, sessionKey } = result`
yields for the `sessionKey` field: the issued key on the fresh path, and
`undefined` (here `none`) when the bare client object was returned. -/
def CreateResult.sessionKeyField : CreateResult → Option String
  | CreateResult.existing _ => none
  | CreateResult.fresh _ k => some k

/-- What the destructuring yields for the `client` field: the capability
handle on the fresh path and `undefined` on the already-registered path
(a `Client` object has no `client` property). -/
def CreateResult.clientField : CreateResult → Option Nat
  | CreateResult.existing _ => none
  | CreateResult.fresh c _ => some c

/-- `createSession(clientId)` (lines 18-50): if a session is registered,
return it bare.  Otherwise: issue a fresh exchange key, register a QR
waiter, set state `INITIALIZING`, allocate a new capability instance,
begin its initialization (external, non-blocking), register it, and return
`{ client, sessionKey }`. -/
def createSession (m : Mgr) (clientId freshKey : String) (now : Nat) :
    Mgr × CreateResult :=
  match m.sessions clientId with
  | some client => (m, CreateResult.existing client)
  | none =>
      let g := generateSessionKey m clientId freshKey now
      let m1 := { g.1 with
        qrPromises := updB g.1.qrPromises clientId true,
        sessionStates := upd g.1.sessionStates clientId (some "INITIALIZING") }
      let client := m1.nextCap
      let m2 := { m1 with
        nextCap := m1.nextCap + 1,
        sessions := upd m1.sessions clientId (some client) }
      (m2, CreateResult.fresh client freshKey)

/-- `destroySession(clientId)` (lines 181-199): the capability teardown
`session.destroy()` is external and its errors are swallowed; the manager
state effect is exactly the deletion of the `sessions`, `qrCodes`,
`qrPromises` and `sessionStates` entries for the client. -/
def destroySession (m : Mgr) (clientId : String) : Mgr :=
  { m with
      sessions := upd m.sessions clientId none,
      qrCodes := upd m.qrCodes clientId none,
      qrPromises := updB m.qrPromises clientId false,
      sessionStates := upd m.sessionStates clientId none }

/-- Outcome of the external fallback probe in `isSessionConnected`
(lines 126-140): the puppeteer page is absent or closed, or
`session.getState()` resolved with a state string, or it threw. -/
inductive FallbackProbe where
  | pageClosedOrAbsent
  | stateIs (s : String)
  | errored
deriving DecidableEq

/-- `isSessionConnected(clientId)` (lines 108-141): no session → false;
internal state `CONNECTED` → true; internal state in the listed set →
false; otherwise consult the external capability (`probe`), caching the
probed result (`CONNECTED`/`DISCONNECTED`, or `ERROR` on failure). -/
def isSessionConnected (m : Mgr) (clientId : String) (probe : FallbackProbe) :
    Mgr × Bool :=
  match m.sessions clientId with
  | none => (m, false)
  | some _ =>
      let internalState := m.sessionStates clientId
      if internalState = some "CONNECTED" then
        (m, true)
      else if [some "INITIALIZING", some "LOADING", some "QR_CODE",
          some "AUTHENTICATED", some "DISCONNECTED",
          some "AUTH_FAILURE"].contains internalState then
        (m, false)
      else
        match probe with
        | FallbackProbe.pageClosedOrAbsent => (m, false)
        | FallbackProbe.stateIs s =>
            let c := s == "CONNECTED"
            let cached := if c then "CONNECTED" else "DISCONNECTED"
            ({ m with sessionStates := upd m.sessionStates clientId (some cached) }, c)
        | FallbackProbe.errored =>
            ({ m with sessionStates := upd m.sessionStates clientId (some "ERROR") },
             false)

/-- Which of the raced signals fires first in `waitForQRCode`
(lines 79-101): the waiter resolves with a rendered artifact, the waiter
rejects, or the timeout timer fires. -/
inductive RaceEvent where
  | qrArrives (qr : String)
  | waiterRejected (msg : String)
  | timeoutFires
deriving DecidableEq

/-- Result of `waitForQRCode`: the artifact, or one of the thrown errors
(already authenticated, line 70; no waiter registered, line 76; timeout,
line 81; waiter rejection propagated, line 97). -/
inductive WaitOutcome where
  | artifact (qr : String)
  | errAlreadyAuthenticated
  | errNoWaiter
  | errTimeout
  | errRejected (msg : String)
deriving DecidableEq

/-- `waitForQRCode(clientId, timeout)` (lines 60-106): a cached artifact is
returned immediately; else if `isSessionConnected` holds the
already-authenticated error is thrown; else if no waiter is registered the
not-found error is thrown; else the waiter is raced against the timeout
(`ev` says which signal fires) and on rejection or timeout the waiter
registration is deleted (the catch block, line 103). -/
def waitForQRCode (m : Mgr) (clientId : String) (probe : FallbackProbe)
    (ev : RaceEvent) : Mgr × WaitOutcome :=
  match m.qrCodes clientId with
  | some existingQR => (m, WaitOutcome.artifact existingQR)
  | none =>
      let c := isSessionConnected m clientId probe
      if c.2 then
        (c.1, WaitOutcome.errAlreadyAuthenticated)
      else if c.1.qrPromises clientId then
        match ev with
        | RaceEvent.qrArrives qr => (c.1, WaitOutcome.artifact qr)
        | RaceEvent.waiterRejected msg =>
            ({ c.1 with qrPromises := updB c.1.qrPromises clientId false },
             WaitOutcome.errRejected msg)
        | RaceEvent.timeoutFires =>
            ({ c.1 with qrPromises := updB c.1.qrPromises clientId false },
             WaitOutcome.errTimeout)
      else
        (c.1, WaitOutcome.errNoWaiter)

/-- `setSessionAuthenticated(clientId, authenticated)` (lines 342-345). -/
def setSessionAuthenticated (m : Mgr) (clientId : String) (authenticated : Bool) :
    Mgr :=
  { m with authenticatedSessions := upd m.authenticatedSessions clientId (some authenticated) }

/-- `isSessionFullyAuthenticated(clientId)` (lines 350-352): strict
comparison `=== true` against the stored flag. -/
def isSessionFullyAuthenticated (m : Mgr) (clientId : String) : Bool :=
  m.authenticatedSessions clientId == some true

/-- The `loading_screen` handler (lines 274-277): sets state `LOADING`. -/
def onLoadingScreen (m : Mgr) (clientId : String) : Mgr :=
  { m with sessionStates := upd m.sessionStates clientId (some "LOADING") }

/-- The `qr` handler (lines 279-299): sets state `QR_CODE`; if rendering the
raw code to base64 succeeds (`render = some artifact`) the artifact is
cached and the waiter resolved, otherwise the waiter is rejected (the
resolve/reject calls are completion signals, not map mutations). -/
def onQr (m : Mgr) (clientId : String) (render : Option String) : Mgr :=
  let m1 := { m with sessionStates := upd m.sessionStates clientId (some "QR_CODE") }
  match render with
  | some artifact => { m1 with qrCodes := upd m1.qrCodes clientId (some artifact) }
  | none => m1

/-- The `authenticated` handler (lines 301-304): sets state `AUTHENTICATED`. -/
def onAuthenticated (m : Mgr) (clientId : String) : Mgr :=
  { m with sessionStates := upd m.sessionStates clientId (some "AUTHENTICATED") }

/-- The `ready` handler (lines 306-315): sets state `CONNECTED`, deletes the
cached QR artifact and the waiter, and marks the session fully
authenticated. -/
def onReady (m : Mgr) (clientId : String) : Mgr :=
  let m1 := { m with
    sessionStates := upd m.sessionStates clientId (some "CONNECTED"),
    qrCodes := upd m.qrCodes clientId none,
    qrPromises := updB m.qrPromises clientId false }
  setSessionAuthenticated m1 clientId true

/-- The `auth_failure` handler (lines 317-322): sets state `AUTH_FAILURE` and
deletes the cached QR artifact and the waiter.  (It does not touch the
`authenticatedSessions` flag.) -/
def onAuthFailure (m : Mgr) (clientId : String) : Mgr :=
  { m with
      sessionStates := upd m.sessionStates clientId (some "AUTH_FAILURE"),
      qrCodes := upd m.qrCodes clientId none,
      qrPromises := updB m.qrPromises clientId false }

/-- The `disconnected` handler (lines 324-332): sets state `DISCONNECTED`,
deletes the cached QR artifact and the waiter, and clears the
fully-authenticated flag. -/
def onDisconnected (m : Mgr) (clientId : String) : Mgr :=
  let m1 := { m with
    sessionStates := upd m.sessionStates clientId (some "DISCONNECTED"),
    qrCodes := upd m.qrCodes clientId none,
    qrPromises := updB m.qrPromises clientId false }
  setSessionAuthenticated m1 clientId false

/-- The record returned by `getSessionStatus` (lines 143-179).  The source
field `exists` is a Lean keyword and is rendered `sessionExists`. -/
structure StatusReport where
  sessionExists : Bool
  connected : Bool
  state : String
  info : Option String
deriving DecidableEq

/-- `getSessionStatus(clientId)` (lines 143-179): a pure read.  No session →
`{exists:false, connected:false, state:"NOT_FOUND"}`.  Otherwise the state
is the stored internal state (default `"UNKNOWN"`), `connected` is the
comparison with `"CONNECTED"`, and `info` is the capability property
`session.info` (the parameter `sessionInfo`, `none` when null) exactly when
connected.  The catch branch guards only pure property reads and cannot
fire. -/
def getSessionStatus (m : Mgr) (clientId : String) (sessionInfo : Option String) :
    StatusReport :=
  match m.sessions clientId with
  | none =>
      { sessionExists := false, connected := false, state := "NOT_FOUND", info := none }
  | some _ =>
      let internalState := (m.sessionStates clientId).getD "UNKNOWN"
      let connected := internalState == "CONNECTED"
      { sessionExists := true
        connected := connected
        state := internalState
        info := if connected then sessionInfo else none }

/-- Result of `restoreSession` (lines 245-271). -/
inductive RestoreResult where
  | alreadyInMemory (client : Nat)
  | restored (client : Nat)
  | restoreFailed
deriving DecidableEq

/-- `restoreSession(clientId)` (lines 245-271): if a session is registered it
is returned; otherwise state is set to `RESTORING`, a capability is
allocated and initialized (outcome `initOk`); on success the session is
registered, on failure the state entry is set to `RESTORE_ERROR` and the
error is rethrown (the session is never registered). -/
def restoreSession (m : Mgr) (clientId : String) (initOk : Bool) :
    Mgr × RestoreResult :=
  match m.sessions clientId with
  | some client => (m, RestoreResult.alreadyInMemory client)
  | none =>
      let m1 := { m with
        sessionStates := upd m.sessionStates clientId (some "RESTORING"),
        nextCap := m.nextCap + 1 }
      let client := m.nextCap
      if initOk then
        ({ m1 with sessions := upd m1.sessions clientId (some client) },
         RestoreResult.restored client)
      else
        ({ m1 with sessionStates := upd m1.sessionStates clientId (some "RESTORE_ERROR") },
         RestoreResult.restoreFailed)

/-- The session-state enumeration of the specification (section 4.2):
`INITIALIZING, LOADING, QR_CODE, AUTHENTICATED, CONNECTED, AUTH_FAILURE,
DISCONNECTED, ERROR, NOT_FOUND, RESTORING`.  Used to express that a stored
value lies outside the specified state space. -/
def specStates : List String :=
  ["INITIALIZING", "LOADING", "QR_CODE", "AUTHENTICATED", "CONNECTED",
   "AUTH_FAILURE", "DISCONNECTED", "ERROR", "NOT_FOUND", "RESTORING"]

/-!
The JWT middleware (src/unnamed/part_005, also src/src/middleware/auth.js).
The signing and verification mechanics of the `jsonwebtoken` library are
external; verification is passed in as a function `verify` from the token
string to the decoded payload (`none` when `jwt.verify` reports an error,
i.e. a tampered, foreign-key or expired token).
-/

/-- The decoded JWT payload: `generateToken` signs `{ id_cliente, generated_at }`
(part_005 lines 41-49); only `id_cliente` is read back by the routes. -/
structure JwtPayload where
  id_cliente : String
deriving DecidableEq

/-- The semantics of JavaScript `s.split(' ')`: cut the character list at
every single space, keeping empty segments. -/
def splitSpaceAux : List Char → List Char → List String
  | [], acc => [String.mk acc.reverse]
  | c :: cs, acc =>
      if c = ' ' then String.mk acc.reverse :: splitSpaceAux cs []
      else splitSpaceAux cs (c :: acc)

/-- `s.split(' ')` on a string. -/
def splitSpace (s : String) : List String :=
  splitSpaceAux s.data []

/-- The token extraction of `authenticateToken` (part_005 lines 12-13):
`authHeader && authHeader.split(' ')[1]`, with every JavaScript-falsy result
(missing header, missing second word, empty string) collapsing to `none`,
which line 15 rejects. -/
def extractBearerToken (authHeader : Option String) : Option String :=
  match authHeader with
  | none => none
  | some h =>
      match (splitSpace h)[1]? with
      | none => none
      | some t => if t = "" then none else some t

/-- Result of the `authenticateToken` middleware: 401 without a token, 403
when `jwt.verify` fails, otherwise the request proceeds carrying
`req.id_cliente = decoded.id_cliente`. -/
inductive AuthCheck where
  | reject401
  | reject403
  | proceed (id_cliente : String)
deriving DecidableEq

/-- `authenticateToken` (part_005 lines 10-36). -/
def authenticateToken (verify : String → Option JwtPayload)
    (authHeader : Option String) : AuthCheck :=
  match extractBearerToken authHeader with
  | none => AuthCheck.reject401
  | some token =>
      match verify token with
      | none => AuthCheck.reject403
      | some decoded => AuthCheck.proceed decoded.id_cliente

/-- `generateToken(id_cliente)` (part_005 lines 41-49): signs a payload
carrying the client id; the signature itself is external, so the token is
modelled by its payload. -/
def generateToken (id_cliente : String) : JwtPayload :=
  { id_cliente := id_cliente }

/-- Response of `POST /send-message` (src/src/routes/index.js lines 416-444).
`invokes id to message` records that the route called
`sessionManager.sendMessage(req.id_cliente, to, message)` with exactly those
arguments; the manager call and its 200/500 outcome are external to the
property verified here. -/
inductive SendMsgResp where
  | unauthorized401
  | forbidden403
  | badRequest400
  | invokes (id_cliente : String) (toAddr : String) (message : String)
deriving DecidableEq

/-- `POST /send-message` (routes lines 416-444): the `authenticateToken`
middleware runs first; then the body fields are required (JavaScript-falsy
values rejected); then the manager is invoked on `req.id_cliente`, the id
decoded from the bearer token. -/
def sendMessageRoute (verify : String → Option JwtPayload)
    (authHeader : Option String) (toAddr message : Option String) : SendMsgResp :=
  match authenticateToken verify authHeader with
  | AuthCheck.reject401 => SendMsgResp.unauthorized401
  | AuthCheck.reject403 => SendMsgResp.forbidden403
  | AuthCheck.proceed id_cliente =>
      match toAddr, message with
      | some t, some msg =>
          if t = "" ∨ msg = "" then SendMsgResp.badRequest400
          else SendMsgResp.invokes id_cliente t msg
      | some _, none => SendMsgResp.badRequest400
      | none, _ => SendMsgResp.badRequest400

/-- Response of `POST /get-token` (routes lines 267-321). -/
inductive GetTokenResp where
  | badRequest400
  | invalidKey401
  | pending (session_state : String)
  | consumeFailed401
  | ok (token : JwtPayload) (expires_in : String)
deriving DecidableEq

/-- `POST /get-token` (routes lines 267-321): 400 when a body field is
missing or falsy; 401 when `isSessionKeyValid` fails (threading its purge
side effect); `pending` when the status is not connected or the session is
not fully authenticated (the key is not consumed); otherwise the key is
consumed (second 401 if that fails) and the signed token is returned with
`expires_in: "24 horas"`. -/
def getTokenRoute (m : Mgr) (id_cliente session_key : Option String) (now : Nat)
    (sessionInfo : Option String) : Mgr × GetTokenResp :=
  match id_cliente, session_key with
  | some id, some key =>
      if id = "" ∨ key = "" then (m, GetTokenResp.badRequest400)
      else
        let v := isSessionKeyValid m id key now
        if !v.2 then (v.1, GetTokenResp.invalidKey401)
        else
          let st := getSessionStatus v.1 id sessionInfo
          if !st.connected || !isSessionFullyAuthenticated v.1 id then
            (v.1, GetTokenResp.pending st.state)
          else
            let c := consumeSessionKey v.1 id key now
            if !c.2 then (c.1, GetTokenResp.consumeFailed401)
            else (c.1, GetTokenResp.ok (generateToken id) "24 horas")
  | some _, none => (m, GetTokenResp.badRequest400)
  | none, _ => (m, GetTokenResp.badRequest400)

/-- Response of `GET /auth` (routes lines 55-122).  `okQR qr sk` carries the
JSON fields `qr_code` and `session_key`; `sk` is the result of destructuring
`{ client, sessionKey }` from `createSession`, hence `none` (undefined) when
the bare client was returned. -/
inductive AuthResp where
  | badRequest400
  | alreadyAuthenticated (session_state : String)
  | okQR (qr_code : String) (session_key : Option String)
  | alreadyAuthenticatedCaught
  | timeout408
  | err500 (details : String)
deriving DecidableEq

/-- `GET /auth` (routes lines 55-122): 400 without `id_cliente`; early return
when the status is connected and the session fully authenticated; when the
session exists but is not connected it is destroyed; then `createSession`
and `waitForQRCode` run, with the thrown errors mapped in the catch block
(already-authenticated → 200 JSON, timeout → 408, anything else → 500). -/
def authRoute (m : Mgr) (id_cliente : Option String) (freshKey : String)
    (now : Nat) (sessionInfo : Option String) (probe : FallbackProbe)
    (ev : RaceEvent) : Mgr × AuthResp :=
  match id_cliente with
  | none => (m, AuthResp.badRequest400)
  | some id =>
      if id = "" then (m, AuthResp.badRequest400)
      else
        let st := getSessionStatus m id sessionInfo
        if st.connected && isSessionFullyAuthenticated m id then
          (m, AuthResp.alreadyAuthenticated st.state)
        else
          let m1 := if st.sessionExists && !st.connected then destroySession m id else m
          let cr := createSession m1 id freshKey now
          let w := waitForQRCode cr.1 id probe ev
          match w.2 with
          | WaitOutcome.artifact qr => (w.1, AuthResp.okQR qr cr.2.sessionKeyField)
          | WaitOutcome.errAlreadyAuthenticated =>
              (w.1, AuthResp.alreadyAuthenticatedCaught)
          | WaitOutcome.errTimeout => (w.1, AuthResp.timeout408)
          | WaitOutcome.errNoWaiter =>
              (w.1, AuthResp.err500 "Sessão não encontrada ou não está aguardando QR Code")
          | WaitOutcome.errRejected msg => (w.1, AuthResp.err500 msg)

/-!
Concrete reachable manager states used by witnesses and counterexamples.
-/

/-- One session created for client `"a"` with exchange key `"K"` at time 0:
capability handle 0 registered, state `INITIALIZING`, waiter pending,
key `"K"` with expiry 600000 ms. -/
def mgrA : Mgr := (createSession Mgr.empty "a" "K" 0).1

/-- `mgrA` after the capability reported ready: state `CONNECTED`, the
fully-authenticated flag set, QR artifact and waiter cleared, exchange key
still recorded. -/
def mgrAConn : Mgr := onReady mgrA "a"

/-!
## Exchange-key issuance, validation and consumption
-/

/-- Characterization of `isSessionKeyValid`: the check succeeds exactly when
a key is recorded, the expiry is recorded, the current time has not passed
the expiry, and the stored key equals the provided one. -/
theorem isSessionKeyValid_true_iff (m : Mgr) (clientId key : String) (now : Nat) :
    (isSessionKeyValid m clientId key now).2 = true ↔
      ∃ e, m.sessionKeys clientId = some key ∧
        m.sessionKeyExpiry clientId = some e ∧ now ≤ e := by
  unfold isSessionKeyValid
  cases h1 : m.sessionKeys clientId with
  | none => simp
  | some k0 =>
      cases h2 : m.sessionKeyExpiry clientId with
      | none => simp
      | some e =>
          by_cases hlt : e < now
          · simp only [hlt, if_true]
            constructor
            · intro h
              exact absurd h (by simp)
            · rintro ⟨e1, hk, he, hle⟩
              injection he with he
              omega
          · simp only [hlt, if_false]
            constructor
            · intro h
              refine ⟨e, ?_, rfl, by omega⟩
              have : k0 = key := by simpa using h
              simp [this]
            · rintro ⟨e1, hk, he, hle⟩
              injection hk with hk
              simp [hk]

/-- When the check succeeds, the manager state is unchanged (the purge fires
only on the expired branch). -/
theorem isSessionKeyValid_true_state (m : Mgr) (clientId key : String) (now : Nat)
    (h : (isSessionKeyValid m clientId key now).2 = true) :
    (isSessionKeyValid m clientId key now).1 = m := by
  rcases (isSessionKeyValid_true_iff m clientId key now).mp h with ⟨e, hk, he, hle⟩
  have hnl : ¬ e < now := by omega
  unfold isSessionKeyValid
  simp [hk, he, hnl]

/-- A successful consumption deletes the key and expiry records. -/
theorem consumeSessionKey_of_valid (m : Mgr) (clientId key : String) (now : Nat)
    (h : (isSessionKeyValid m clientId key now).2 = true) :
    (consumeSessionKey m clientId key now).2 = true ∧
    (consumeSessionKey m clientId key now).1.sessionKeys clientId = none ∧
    (consumeSessionKey m clientId key now).1.sessionKeyExpiry clientId = none := by
  unfold consumeSessionKey
  simp [h, upd]

/-- With no recorded key, consumption fails. -/
theorem consumeSessionKey_noKey (m : Mgr) (clientId key : String) (now : Nat)
    (h : m.sessionKeys clientId = none) :
    (consumeSessionKey m clientId key now).2 = false := by
  unfold consumeSessionKey isSessionKeyValid
  simp [h]

/-- Claim C1: `isSessionKeyValid(clientId, key)` returns true iff a key is
recorded for the client, the provided key matches the stored key exactly,
and the current time is at most the recorded expiry; an expired record is
deleted as a side effect of the check; and `consumeSessionKey(clientId, key)`
returns true and deletes the record on the first call with a valid key, and
returns false on every subsequent call with the same key. -/
theorem sessionKey_valid_iff_and_one_time_use (m : Mgr) (clientId key : String)
    (now : Nat) :
    ((isSessionKeyValid m clientId key now).2 = true ↔
      ∃ e, m.sessionKeys clientId = some key ∧
        m.sessionKeyExpiry clientId = some e ∧ now ≤ e) ∧
    (∀ k0 e, m.sessionKeys clientId = some k0 → m.sessionKeyExpiry clientId = some e →
      e < now →
      (isSessionKeyValid m clientId key now).1.sessionKeys clientId = none ∧
      (isSessionKeyValid m clientId key now).1.sessionKeyExpiry clientId = none) ∧
    ((isSessionKeyValid m clientId key now).2 = true →
      (consumeSessionKey m clientId key now).2 = true ∧
      ∀ now2,
        (consumeSessionKey (consumeSessionKey m clientId key now).1 clientId key now2).2
          = false) := by
  refine ⟨isSessionKeyValid_true_iff m clientId key now, ?_, ?_⟩
  · intro k0 e hk he hlt
    unfold isSessionKeyValid
    simp [hk, he, hlt, upd]
  · intro h
    refine ⟨(consumeSessionKey_of_valid m clientId key now h).1, fun now2 => ?_⟩
    exact consumeSessionKey_noKey _ clientId key now2
      (consumeSessionKey_of_valid m clientId key now h).2.1

/-- Witness for C1 at a concrete reachable state: key `"K"` of client `"a"`
is consumed successfully at time 5, a second consumption with the same key
fails, and at time 600001 (past the 600000 ms expiry) the check purges the
record. -/
theorem sessionKey_valid_iff_and_one_time_use_witness :
    (consumeSessionKey mgrA "a" "K" 5).2 = true ∧
    (consumeSessionKey (consumeSessionKey mgrA "a" "K" 5).1 "a" "K" 6).2 = false ∧
    (isSessionKeyValid mgrA "a" "K" 600001).1.sessionKeys "a" = none := by
  have h1 := (sessionKey_valid_iff_and_one_time_use mgrA "a" "K" 5).2.2 (by decide)
  have h2 := (sessionKey_valid_iff_and_one_time_use mgrA "a" "K" 600001).2.1
    "K" 600000 (by decide) (by decide) (by decide)
  exact ⟨h1.1, h1.2 6, h2.1⟩

/-!
## Session destruction
-/

/-- Counterexample to claim C2: in the reachable state `mgrAConn` (client
`"a"` created at time 0 and connected, key `"K"` issued), `destroySession`
leaves the stored exchange key, its expiry and the authenticated flag in
place, and the previously issued key is still accepted as valid at time 5. -/
theorem destroySession_keeps_key_issuer_state :
    (destroySession mgrAConn "a").sessionKeys "a" = some "K" ∧
    (destroySession mgrAConn "a").sessionKeyExpiry "a" = some 600000 ∧
    (destroySession mgrAConn "a").authenticatedSessions "a" = some true ∧
    (isSessionKeyValid (destroySession mgrAConn "a") "a" "K" 5).2 = true := by
  decide

/-- Claim C2 (amended): after `destroySession(clientId)` the session registry
entry, the cached QR artifact, the handshake waiter and the lifecycle state
entry for that client are removed, but the exchange-key issuer state (stored
key, expiry) and the authenticated flag are left untouched, so an exchange
key issued before the destroy has exactly the validity it had before. -/
theorem destroySession_removes_and_keeps (m : Mgr) (clientId : String) :
    (destroySession m clientId).sessions clientId = none ∧
    (destroySession m clientId).qrCodes clientId = none ∧
    (destroySession m clientId).qrPromises clientId = false ∧
    (destroySession m clientId).sessionStates clientId = none ∧
    (destroySession m clientId).sessionKeys = m.sessionKeys ∧
    (destroySession m clientId).sessionKeyExpiry = m.sessionKeyExpiry ∧
    (destroySession m clientId).authenticatedSessions = m.authenticatedSessions ∧
    ∀ key now,
      (isSessionKeyValid (destroySession m clientId) clientId key now).2 =
        (isSessionKeyValid m clientId key now).2 := by
  refine ⟨by simp [destroySession, upd], by simp [destroySession, upd],
    by simp [destroySession, updB], by simp [destroySession, upd],
    rfl, rfl, rfl, ?_⟩
  intro key now
  unfold isSessionKeyValid
  cases h1 : m.sessionKeys clientId <;>
    cases h2 : m.sessionKeyExpiry clientId <;>
      (simp [destroySession, h1, h2]; try (split <;> rfl))

/-!
## Bearer-credential binding
-/

/-- Claim C3: every bearer-protected operation acts only on the client id
embedded in the presented credential.  For the send-message route: a request
with no extractable bearer token is rejected 401; a token the verifier
rejects is rejected 403; a token decoding to client `a` drives the manager
call on `a`; and conversely, whenever the route invokes the manager for
client `b`, the presented token decodes to exactly `b` — so a credential
issued for client A can never act on client B. -/
theorem bearer_ops_bound_to_credential_client (verify : String → Option JwtPayload)
    (authHeader : Option String) (toAddr message : Option String) :
    (extractBearerToken authHeader = none →
      sendMessageRoute verify authHeader toAddr message = SendMsgResp.unauthorized401) ∧
    (∀ t, extractBearerToken authHeader = some t → verify t = none →
      sendMessageRoute verify authHeader toAddr message = SendMsgResp.forbidden403) ∧
    (∀ t a ta msg, extractBearerToken authHeader = some t →
      verify t = some { id_cliente := a } →
      toAddr = some ta → message = some msg → ta ≠ "" → msg ≠ "" →
      sendMessageRoute verify authHeader toAddr message = SendMsgResp.invokes a ta msg) ∧
    (∀ b ta msg,
      sendMessageRoute verify authHeader toAddr message = SendMsgResp.invokes b ta msg →
      ∃ t, extractBearerToken authHeader = some t ∧
        verify t = some { id_cliente := b }) := by
  refine ⟨?_, ?_, ?_, ?_⟩
  · intro hx
    simp [sendMessageRoute, authenticateToken, hx]
  · intro t hx hv
    simp [sendMessageRoute, authenticateToken, hx, hv]
  · intro t a ta msg hx hv hta hmsg h1 h2
    subst hta; subst hmsg
    simp [sendMessageRoute, authenticateToken, hx, hv, h1, h2]
  · intro b ta msg hr
    unfold sendMessageRoute authenticateToken at hr
    cases hx : extractBearerToken authHeader with
    | none => simp [hx] at hr
    | some t =>
        cases hv : verify t with
        | none => simp [hx, hv] at hr
        | some decoded =>
            obtain ⟨a0⟩ := decoded
            cases toAddr with
            | none => simp [hx, hv] at hr
            | some ta0 =>
                cases message with
                | none => simp [hx, hv] at hr
                | some msg0 =>
                    simp only [hx, hv] at hr
                    by_cases h0 : ta0 = "" ∨ msg0 = ""
                    · rw [if_pos h0] at hr
                      exact absurd hr (by simp)
                    · rw [if_neg h0] at hr
                      simp only [SendMsgResp.invokes.injEq] at hr
                      exact ⟨t, rfl, by rw [hv, hr.1]⟩

/-- Witness for C3 with a concrete verifier accepting exactly the token
`"tokA"` as client `"A"`: the three rejection/binding behaviours at concrete
requests. -/
theorem bearer_ops_bound_witness :
    sendMessageRoute (fun t => if t = "tokA" then some { id_cliente := "A" } else none)
      none (some "5511") (some "hi") = SendMsgResp.unauthorized401 ∧
    sendMessageRoute (fun t => if t = "tokA" then some { id_cliente := "A" } else none)
      (some "Bearer bad") (some "5511") (some "hi") = SendMsgResp.forbidden403 ∧
    sendMessageRoute (fun t => if t = "tokA" then some { id_cliente := "A" } else none)
      (some "Bearer tokA") (some "5511") (some "hi") = SendMsgResp.invokes "A" "5511" "hi" := by
  refine ⟨?_, ?_, ?_⟩
  · exact (bearer_ops_bound_to_credential_client _ none (some "5511") (some "hi")).1
      (by decide)
  · exact (bearer_ops_bound_to_credential_client _ (some "Bearer bad") (some "5511")
      (some "hi")).2.1 "bad" (by decide) (by decide)
  · exact (bearer_ops_bound_to_credential_client _ (some "Bearer tokA") (some "5511")
      (some "hi")).2.2.1 "tokA" "A" "5511" "hi" (by decide) (by decide) rfl rfl
      (by decide) (by decide)

/-!
## Idempotent session creation
-/

/-- Counterexample to claim C4: the two calls do not share a return shape.
The first call on the empty manager returns `{client, sessionKey}` (`fresh`),
while the second call for the same client returns the stored client bare
(`existing`), so the destructured `sessionKey` field is `undefined` (`none`)
and no exchange-key value reaches the caller on the already-registered
path. -/
theorem createSession_second_call_shape :
    (createSession Mgr.empty "a" "K" 0).2 = CreateResult.fresh 0 "K" ∧
    (createSession Mgr.empty "a" "K" 0).2.sessionKeyField = some "K" ∧
    (createSession mgrA "a" "K2" 7).2 = CreateResult.existing 0 ∧
    (createSession mgrA "a" "K2" 7).2.sessionKeyField = none := by
  decide

/-- Claim C4 (amended): `createSession` is idempotent on the underlying
session: a second call without an intervening destroy returns the very
client registered by the first call and leaves the manager unchanged; but
the exchange-key value is returned only on the fresh-creation path — the
already-registered path returns the client bare, so its destructured
`sessionKey` field is `none`. -/
theorem createSession_idempotent (m : Mgr) (clientId k1 k2 : String) (n1 n2 : Nat)
    (h : m.sessions clientId = none) :
    ∃ c,
      (createSession m clientId k1 n1).2 = CreateResult.fresh c k1 ∧
      (createSession m clientId k1 n1).1.sessions clientId = some c ∧
      createSession (createSession m clientId k1 n1).1 clientId k2 n2 =
        ((createSession m clientId k1 n1).1, CreateResult.existing c) ∧
      (createSession (createSession m clientId k1 n1).1 clientId k2 n2).2.sessionKeyField
        = none := by
  refine ⟨m.nextCap, ?_, ?_, ?_, ?_⟩ <;>
    simp [createSession, generateSessionKey, h, upd, CreateResult.sessionKeyField]

/-- Witness for C4 at the empty manager and client `"a"`. -/
theorem createSession_idempotent_witness :
    ∃ c,
      (createSession Mgr.empty "a" "K" 0).2 = CreateResult.fresh c "K" ∧
      (createSession Mgr.empty "a" "K" 0).1.sessions "a" = some c ∧
      createSession (createSession Mgr.empty "a" "K" 0).1 "a" "K2" 7 =
        ((createSession Mgr.empty "a" "K" 0).1, CreateResult.existing c) ∧
      (createSession (createSession Mgr.empty "a" "K" 0).1 "a" "K2" 7).2.sessionKeyField
        = none :=
  createSession_idempotent Mgr.empty "a" "K" "K2" 0 7 rfl

/-!
## Terminal failure events and the authenticated flag
-/

/-- Counterexample to claim C5: in the reachable connected state `mgrAConn`
the fully-authenticated flag is true, and it is still true after the
`auth_failure` handler runs — that handler does not clear the flag. -/
theorem authFailure_keeps_authenticated_flag :
    isSessionFullyAuthenticated mgrAConn "a" = true ∧
    isSessionFullyAuthenticated (onAuthFailure mgrAConn "a") "a" = true := by
  decide

/-- Claim C5 (amended): the `disconnected` handler clears the
fully-authenticated flag and deletes the cached QR artifact and the waiter;
the `auth_failure` handler also deletes the artifact and the waiter and sets
state `AUTH_FAILURE`, but leaves the authenticated-flag store exactly as it
was. -/
theorem terminal_events_and_auth_flag (m : Mgr) (clientId : String) :
    isSessionFullyAuthenticated (onDisconnected m clientId) clientId = false ∧
    (onDisconnected m clientId).qrCodes clientId = none ∧
    (onDisconnected m clientId).qrPromises clientId = false ∧
    (onDisconnected m clientId).sessionStates clientId = some "DISCONNECTED" ∧
    (onAuthFailure m clientId).qrCodes clientId = none ∧
    (onAuthFailure m clientId).qrPromises clientId = false ∧
    (onAuthFailure m clientId).sessionStates clientId = some "AUTH_FAILURE" ∧
    (onAuthFailure m clientId).authenticatedSessions = m.authenticatedSessions := by
  simp [onDisconnected, onAuthFailure, setSessionAuthenticated,
    isSessionFullyAuthenticated, upd, updB]

/-!
## The handshake wait
-/

/-- Claim C6: `waitForQRCode` returns a cached artifact immediately with the
manager unchanged (so waiting twice after production yields the identical
artifact); with no cached artifact and the session already connected it
fails with the already-authenticated error; and with no artifact, session
not connected and a waiter registered, timer expiry fails with the timeout
error and deletes the waiter registration. -/
theorem waitForQRCode_contract (m : Mgr) (clientId : String) (probe : FallbackProbe)
    (ev : RaceEvent) :
    (∀ qr, m.qrCodes clientId = some qr →
      waitForQRCode m clientId probe ev = (m, WaitOutcome.artifact qr) ∧
      waitForQRCode (waitForQRCode m clientId probe ev).1 clientId probe ev =
        (m, WaitOutcome.artifact qr)) ∧
    (m.qrCodes clientId = none → (isSessionConnected m clientId probe).2 = true →
      (waitForQRCode m clientId probe ev).2 = WaitOutcome.errAlreadyAuthenticated) ∧
    (m.qrCodes clientId = none → (isSessionConnected m clientId probe).2 = false →
      (isSessionConnected m clientId probe).1.qrPromises clientId = true →
      (waitForQRCode m clientId probe RaceEvent.timeoutFires).2 = WaitOutcome.errTimeout ∧
      (waitForQRCode m clientId probe RaceEvent.timeoutFires).1.qrPromises clientId
        = false) := by
  refine ⟨?_, ?_, ?_⟩
  · intro qr h
    constructor <;> simp [waitForQRCode, h]
  · intro h hc
    simp [waitForQRCode, h, hc]
  · intro h hc hw
    simp [waitForQRCode, h, hc, hw, updB]

/-- Witness for C6 at concrete reachable states: a cached artifact is
returned twice identically; the connected state fails with
already-authenticated; the freshly created state times out and its waiter
is discarded. -/
theorem waitForQRCode_contract_witness :
    waitForQRCode (onQr mgrA "a" (some "QR1")) "a" FallbackProbe.pageClosedOrAbsent
        RaceEvent.timeoutFires =
      (onQr mgrA "a" (some "QR1"), WaitOutcome.artifact "QR1") ∧
    (waitForQRCode mgrAConn "a" FallbackProbe.pageClosedOrAbsent
        (RaceEvent.qrArrives "X")).2 = WaitOutcome.errAlreadyAuthenticated ∧
    (waitForQRCode mgrA "a" FallbackProbe.pageClosedOrAbsent RaceEvent.timeoutFires).2 =
      WaitOutcome.errTimeout ∧
    (waitForQRCode mgrA "a" FallbackProbe.pageClosedOrAbsent
        RaceEvent.timeoutFires).1.qrPromises "a" = false := by
  have h1 := (waitForQRCode_contract (onQr mgrA "a" (some "QR1")) "a"
    FallbackProbe.pageClosedOrAbsent RaceEvent.timeoutFires).1 "QR1" (by decide)
  have h2 := (waitForQRCode_contract mgrAConn "a" FallbackProbe.pageClosedOrAbsent
    (RaceEvent.qrArrives "X")).2.1 (by decide) (by decide)
  have h3 := (waitForQRCode_contract mgrA "a" FallbackProbe.pageClosedOrAbsent
    RaceEvent.timeoutFires).2.2 (by decide) (by decide) (by decide)
  exact ⟨h1.1, h2, h3.1, h3.2⟩

/-!
## The token exchange route
-/

/-- Claim C7: `POST /get-token` returns 401 when the session key is invalid
or expired; returns `pending` with the manager unchanged (the key is not
consumed) when the key is valid but the session is not connected or not
fully authenticated; on success consumes the key and returns `ok` with the
token for the client and `expires_in` `"24 horas"`; and a second call with
the same key after a success returns 401. -/
theorem getToken_contract (m : Mgr) (id key : String) (now : Nat)
    (info : Option String) (hid : id ≠ "") (hkey : key ≠ "") :
    ((isSessionKeyValid m id key now).2 = false →
      getTokenRoute m (some id) (some key) now info =
        ((isSessionKeyValid m id key now).1, GetTokenResp.invalidKey401)) ∧
    ((isSessionKeyValid m id key now).2 = true →
      ((getSessionStatus m id info).connected = false ∨
        isSessionFullyAuthenticated m id = false) →
      getTokenRoute m (some id) (some key) now info =
        (m, GetTokenResp.pending (getSessionStatus m id info).state)) ∧
    ((isSessionKeyValid m id key now).2 = true →
      (getSessionStatus m id info).connected = true →
      isSessionFullyAuthenticated m id = true →
      (getTokenRoute m (some id) (some key) now info).2 =
        GetTokenResp.ok (generateToken id) "24 horas" ∧
      (getTokenRoute m (some id) (some key) now info).1.sessionKeys id = none ∧
      ∀ now2 info2,
        (getTokenRoute (getTokenRoute m (some id) (some key) now info).1
          (some id) (some key) now2 info2).2 = GetTokenResp.invalidKey401) := by
  have hguard : ¬(id = "" ∨ key = "") := fun h => h.elim hid hkey
  refine ⟨?_, ?_, ?_⟩
  · intro h
    simp only [getTokenRoute]
    rw [if_neg hguard]
    simp [h]
  · intro h hp
    have hst := isSessionKeyValid_true_state m id key now h
    simp only [getTokenRoute]
    rw [if_neg hguard]
    rcases hp with hp | hp <;> simp [h, hst, hp]
  · intro h hc hf
    have hst := isSessionKeyValid_true_state m id key now h
    have hcons := consumeSessionKey_of_valid m id key now h
    have hroute : getTokenRoute m (some id) (some key) now info =
        ((consumeSessionKey m id key now).1,
          GetTokenResp.ok (generateToken id) "24 horas") := by
      simp only [getTokenRoute]
      rw [if_neg hguard]
      simp [h, hst, hc, hf, hcons.1]
    refine ⟨by rw [hroute], by rw [hroute]; exact hcons.2.1, ?_⟩
    intro now2 info2
    rw [hroute]
    simp only [getTokenRoute]
    rw [if_neg hguard]
    simp [isSessionKeyValid, hcons.2.1]

/-- Witness for C7: on the connected state `mgrAConn` the valid key `"K"`
yields the token for `"a"` and a second call with the same key yields 401;
on the not-yet-connected state `mgrA` the valid key yields `pending`
without consuming; a wrong key yields 401. -/
theorem getToken_contract_witness :
    (getTokenRoute mgrAConn (some "a") (some "K") 5 none).2 =
      GetTokenResp.ok (generateToken "a") "24 horas" ∧
    (getTokenRoute (getTokenRoute mgrAConn (some "a") (some "K") 5 none).1
      (some "a") (some "K") 6 none).2 = GetTokenResp.invalidKey401 ∧
    getTokenRoute mgrA (some "a") (some "K") 5 none =
      (mgrA, GetTokenResp.pending (getSessionStatus mgrA "a" none).state) ∧
    getTokenRoute mgrA (some "a") (some "WRONG") 5 none =
      ((isSessionKeyValid mgrA "a" "WRONG" 5).1, GetTokenResp.invalidKey401) := by
  have h1 := (getToken_contract mgrAConn "a" "K" 5 none (by decide) (by decide)).2.2
    (by decide) (by decide) (by decide)
  have h2 := (getToken_contract mgrA "a" "K" 5 none (by decide) (by decide)).2.1
    (by decide) (Or.inl (by decide))
  have h3 := (getToken_contract mgrA "a" "WRONG" 5 none (by decide) (by decide)).1
    (by decide)
  exact ⟨h1.1, h1.2.2 6 none, h2, h3⟩

/-!
## Status reporting
-/

/-- Claim C8: `getSessionStatus` is a pure read (it returns a report and
leaves the manager untouched by construction); for every client id without
a registered session — in particular immediately after `destroySession` —
it returns `{exists:false, connected:false, state:"NOT_FOUND"}`; for a
registered session the `connected` field is true exactly when the stored
state is `CONNECTED`; and `info` is populated only when connected. -/
theorem getSessionStatus_contract (m : Mgr) (clientId : String) (info : Option String) :
    (m.sessions clientId = none →
      getSessionStatus m clientId info =
        { sessionExists := false, connected := false, state := "NOT_FOUND", info := none }) ∧
    (getSessionStatus (destroySession m clientId) clientId info =
      { sessionExists := false, connected := false, state := "NOT_FOUND", info := none }) ∧
    (∀ c, m.sessions clientId = some c →
      ((getSessionStatus m clientId info).connected = true ↔
        m.sessionStates clientId = some "CONNECTED")) ∧
    ((getSessionStatus m clientId info).info.isSome →
      (getSessionStatus m clientId info).connected = true) := by
  refine ⟨?_, ?_, ?_, ?_⟩
  · intro h
    simp [getSessionStatus, h]
  · simp [getSessionStatus, destroySession, upd]
  · intro c h
    cases hst : m.sessionStates clientId with
    | none => simp [getSessionStatus, h, hst]
    | some s => simp [getSessionStatus, h, hst]
  · cases h : m.sessions clientId with
    | none => simp [getSessionStatus, h]
    | some c =>
        by_cases hc : ((m.sessionStates clientId).getD "UNKNOWN") = "CONNECTED" <;>
          simp [getSessionStatus, h, hc]

/-- Witness for C8: the empty manager reports `NOT_FOUND` for `"a"`; the
connected state `mgrAConn` reports `connected` (its stored state is
`CONNECTED`) and carries profile info exactly then. -/
theorem getSessionStatus_contract_witness :
    getSessionStatus Mgr.empty "a" none =
      { sessionExists := false, connected := false, state := "NOT_FOUND", info := none } ∧
    (getSessionStatus mgrAConn "a" (some "profile")).connected = true ∧
    (getSessionStatus mgrA "a" (some "profile")).connected = false := by
  have h1 := (getSessionStatus_contract Mgr.empty "a" none).1 rfl
  have h2 := ((getSessionStatus_contract mgrAConn "a" (some "profile")).2.2.1 0
    (by decide)).mpr (by decide)
  have h3 := (getSessionStatus_contract mgrA "a" (some "profile")).2.2.1 0 (by decide)
  refine ⟨h1, h2, ?_⟩
  by_contra hcon
  simp at hcon
  exact absurd (h3.mp hcon) (by decide)

/-!
## Recreation of a non-connected session by GET /auth
-/

/-- Field-level description of the fresh-creation path of `createSession`. -/
theorem createSession_fresh_fields (m0 : Mgr) (clientId freshKey : String)
    (now : Nat) (h : m0.sessions clientId = none) :
    (createSession m0 clientId freshKey now).2 =
      CreateResult.fresh m0.nextCap freshKey ∧
    (createSession m0 clientId freshKey now).1.sessions clientId = some m0.nextCap ∧
    (createSession m0 clientId freshKey now).1.sessionKeys clientId = some freshKey ∧
    (createSession m0 clientId freshKey now).1.sessionKeyExpiry clientId =
      some (now + 10 * 60 * 1000) ∧
    (createSession m0 clientId freshKey now).1.sessionStates clientId =
      some "INITIALIZING" ∧
    (createSession m0 clientId freshKey now).1.qrPromises clientId = true ∧
    (createSession m0 clientId freshKey now).1.qrCodes clientId =
      m0.qrCodes clientId := by
  refine ⟨?_, ?_, ?_, ?_, ?_, ?_, ?_⟩ <;>
    simp [createSession, generateSessionKey, h, upd, updB]

/-- A session in internal state `INITIALIZING` is reported not connected,
with no state mutation (the probe is not consulted). -/
theorem isSessionConnected_of_initializing (m0 : Mgr) (clientId : String)
    (probe : FallbackProbe) (c : Nat) (h1 : m0.sessions clientId = some c)
    (h2 : m0.sessionStates clientId = some "INITIALIZING") :
    isSessionConnected m0 clientId probe = (m0, false) := by
  simp [isSessionConnected, h1, h2]

/-- With no cached artifact, a not-connected session and a registered
waiter, the wait returns the artifact delivered by the waiter. -/
theorem waitForQRCode_qr_event (m0 : Mgr) (clientId qr : String)
    (probe : FallbackProbe) (h0 : m0.qrCodes clientId = none)
    (hconn : isSessionConnected m0 clientId probe = (m0, false))
    (hw : m0.qrPromises clientId = true) :
    waitForQRCode m0 clientId probe (RaceEvent.qrArrives qr) =
      (m0, WaitOutcome.artifact qr) := by
  simp [waitForQRCode, h0, hconn, hw]

/-- Claim C9: `GET /auth` for a client whose session exists but is not
connected destroys the existing session and creates a fresh one before
waiting for the QR code: the response carries the artifact delivered by the
new waiter together with the newly issued exchange key, and the resulting
manager registers a freshly allocated capability (distinct from the old one
under the allocator invariant), the new key with expiry `now + 10` minutes,
state `INITIALIZING`, a new pending waiter, and no cached QR artifact. -/
theorem authRoute_recreates_nonconnected (m : Mgr) (clientId : String) (c : Nat)
    (s freshKey qr : String) (now : Nat) (info : Option String)
    (probe : FallbackProbe) (hid : clientId ≠ "")
    (hs : m.sessions clientId = some c)
    (hst : m.sessionStates clientId = some s) (hne : s ≠ "CONNECTED") :
    (authRoute m (some clientId) freshKey now info probe (RaceEvent.qrArrives qr)).2 =
      AuthResp.okQR qr (some freshKey) ∧
    (authRoute m (some clientId) freshKey now info probe
      (RaceEvent.qrArrives qr)).1.sessions clientId = some m.nextCap ∧
    (authRoute m (some clientId) freshKey now info probe
      (RaceEvent.qrArrives qr)).1.sessionKeys clientId = some freshKey ∧
    (authRoute m (some clientId) freshKey now info probe
      (RaceEvent.qrArrives qr)).1.sessionKeyExpiry clientId =
      some (now + 10 * 60 * 1000) ∧
    (authRoute m (some clientId) freshKey now info probe
      (RaceEvent.qrArrives qr)).1.sessionStates clientId = some "INITIALIZING" ∧
    (authRoute m (some clientId) freshKey now info probe
      (RaceEvent.qrArrives qr)).1.qrPromises clientId = true ∧
    (authRoute m (some clientId) freshKey now info probe
      (RaceEvent.qrArrives qr)).1.qrCodes clientId = none ∧
    (c < m.nextCap →
      (authRoute m (some clientId) freshKey now info probe
        (RaceEvent.qrArrives qr)).1.sessions clientId ≠ some c) := by
  have hD : (destroySession m clientId).sessions clientId = none := by
    simp [destroySession, upd]
  have hDqr : (destroySession m clientId).qrCodes clientId = none := by
    simp [destroySession, upd]
  have hC := createSession_fresh_fields (destroySession m clientId) clientId
    freshKey now hD
  have hCqr : (createSession (destroySession m clientId) clientId freshKey
      now).1.qrCodes clientId = none := by
    rw [hC.2.2.2.2.2.2, hDqr]
  have hCconn := isSessionConnected_of_initializing
    (createSession (destroySession m clientId) clientId freshKey now).1 clientId
    probe (destroySession m clientId).nextCap hC.2.1 hC.2.2.2.2.1
  have hwait := waitForQRCode_qr_event
    (createSession (destroySession m clientId) clientId freshKey now).1 clientId
    qr probe hCqr hCconn hC.2.2.2.2.2.1
  have hstatus : getSessionStatus m clientId info =
      { sessionExists := true, connected := false, state := s, info := none } := by
    simp [getSessionStatus, hs, hst, hne]
  have hroute : authRoute m (some clientId) freshKey now info probe
      (RaceEvent.qrArrives qr) =
      ((createSession (destroySession m clientId) clientId freshKey now).1,
        AuthResp.okQR qr (some freshKey)) := by
    simp only [authRoute]
    rw [if_neg hid, hstatus]
    simp [hwait, hC.1, CreateResult.sessionKeyField]
  rw [hroute]
  have hnc : (destroySession m clientId).nextCap = m.nextCap := rfl
  refine ⟨rfl, hnc ▸ hC.2.1, hC.2.2.1, hC.2.2.2.1, hC.2.2.2.2.1,
    hC.2.2.2.2.2.1, hCqr, ?_⟩
  intro hlt hcontra
  rw [hC.2.1] at hcontra
  injection hcontra with hcontra
  rw [hnc] at hcontra
  omega

/-- Witness for C9: on `mgrA` (session for `"a"` exists with state
`INITIALIZING`, old capability 0, old key `"K"`), the route destroys and
recreates: the response carries the new QR `"QR2"` and the new key `"K2"`,
and the resulting manager holds capability 1 and key `"K2"`. -/
theorem authRoute_recreates_nonconnected_witness :
    (authRoute mgrA (some "a") "K2" 50 none FallbackProbe.pageClosedOrAbsent
      (RaceEvent.qrArrives "QR2")).2 = AuthResp.okQR "QR2" (some "K2") ∧
    (authRoute mgrA (some "a") "K2" 50 none FallbackProbe.pageClosedOrAbsent
      (RaceEvent.qrArrives "QR2")).1.sessions "a" = some 1 ∧
    (authRoute mgrA (some "a") "K2" 50 none FallbackProbe.pageClosedOrAbsent
      (RaceEvent.qrArrives "QR2")).1.sessionKeys "a" = some "K2" := by
  have h := authRoute_recreates_nonconnected mgrA "a" 0 "INITIALIZING" "K2" "QR2"
    50 none FallbackProbe.pageClosedOrAbsent (by decide) (by decide) (by decide)
    (by decide)
  have hcap : mgrA.nextCap = 1 := by decide
  exact ⟨h.1, hcap ▸ h.2.1, h.2.2.1⟩

/-!
## Orphaned state entry after a failed restore
-/

/-- Claim C10: when `restoreSession(clientId)` fails during capability
initialization, the session is never registered but the state entry is left
at `RESTORE_ERROR` — a value outside the state enumeration of the
specification — and `getSessionStatus` for that client subsequently reports
`{exists:false, state:"NOT_FOUND"}` while the orphaned entry persists. -/
theorem restoreSession_failure_orphan (m : Mgr) (clientId : String)
    (info : Option String) (h : m.sessions clientId = none) :
    (restoreSession m clientId false).2 = RestoreResult.restoreFailed ∧
    (restoreSession m clientId false).1.sessions clientId = none ∧
    (restoreSession m clientId false).1.sessionStates clientId =
      some "RESTORE_ERROR" ∧
    getSessionStatus (restoreSession m clientId false).1 clientId info =
      { sessionExists := false, connected := false, state := "NOT_FOUND", info := none } ∧
    "RESTORE_ERROR" ∉ specStates := by
  refine ⟨?_, ?_, ?_, ?_, by decide⟩ <;>
    simp [restoreSession, getSessionStatus, h, upd]

/-- Witness for C10 at the empty manager. -/
theorem restoreSession_failure_orphan_witness :
    (restoreSession Mgr.empty "a" false).1.sessions "a" = none ∧
    (restoreSession Mgr.empty "a" false).1.sessionStates "a" =
      some "RESTORE_ERROR" ∧
    getSessionStatus (restoreSession Mgr.empty "a" false).1 "a" none =
      { sessionExists := false, connected := false, state := "NOT_FOUND", info := none } := by
  have h := restoreSession_failure_orphan Mgr.empty "a" none rfl
  exact ⟨h.2.1, h.2.2.1, h.2.2.2.1⟩
